import Mathlib

/-!
Shallow embedding of the music-recommendation engine (scoring, NLP index,
questionnaire services) with rational numbers standing for Python floats.
Python dictionaries of audio features are embedded as association lists
with first-match lookup; set-intersection of key sets is embedded as a
deduplicated filtered key list (the arithmetic mean taken over it is
order-independent, matching the arbitrary iteration order of a Python set).
-/

namespace Vibey

/-- A Python dict from feature names to floats, as an association list. -/
abbrev Dict := List (String × ℚ)

/-- First-match lookup with Python KeyError impossible at the call sites we
embed (every lookup is guarded by key membership); default 0 otherwise. -/
def dlookup : Dict → String → ℚ
  | [], _ => 0
  | (k1, v) :: rest, k => if k1 = k then v else dlookup rest k

/-- Key list of a dict. -/
def dkeys (d : Dict) : List String := d.map Prod.fst

/-- Python dict assignment d[k] = v: overwrite if present, else append. -/
def dset (d : Dict) (k : String) (v : ℚ) : Dict :=
  if d.any (fun p => p.1 = k) then d.map (fun p => if p.1 = k then (k, v) else p)
  else d ++ [(k, v)]

/-- Lowercasing as Python str.lower on the characters that occur in this
repository's data: ASCII plus the accented French capitals. -/
def pyLowerChar (c : Char) : Char :=
  if c = 'É' then 'é' else if c = 'È' then 'è' else if c = 'Ê' then 'ê'
  else if c = 'Ë' then 'ë' else if c = 'À' then 'à' else if c = 'Â' then 'â'
  else if c = 'Ç' then 'ç' else if c = 'Î' then 'î' else if c = 'Ï' then 'ï'
  else if c = 'Ô' then 'ô' else if c = 'Û' then 'û' else if c = 'Ù' then 'ù'
  else c.toLower

/-- Python str.lower over a whole string. -/
def pyLower (s : String) : String := String.mk (s.data.map pyLowerChar)

/-- Python substring test: needle in hay. -/
def containsSub (needle : List Char) : List Char → Bool
  | [] => needle.isPrefixOf []
  | c :: rest => needle.isPrefixOf (c :: rest) || containsSub needle rest

/-! ## config.config -/

/-- WEIGHTS table from src/config/config.py. -/
def WEIGHTS : Dict :=
  [("semantic_similarity", 1/2), ("mood_match", 1/5),
   ("preference_likert", 1/5), ("audio_features", 1/10)]

/-- Keys of MOOD_MAPPINGS from src/config/config.py, in insertion order. -/
def MOOD_MAPPINGS_keys : List String :=
  ["joyeux", "triste", "énergique", "calme", "mélancolique",
   "motivant", "romantique", "festif", "relaxant", "intense"]

/-- TOP_N_RECOMMENDATIONS from src/config/config.py. -/
def TOP_N_RECOMMENDATIONS : ℕ := 3

/-! ## services.scoring_service : data shapes -/

/-- The item payload dict, with the optional keys the scorer reads
(data.get and key-membership tests in the Python source). -/
structure ElementData where
  nom : Option String := none
  artiste : Option String := none
  genre : Option String := none
  moods_associes : Option (List String) := none
  caracteristiques_moyennes : Option Dict := none
  deriving DecidableEq, Repr

/-- One referential element dict as fed to the scorer: type, id, the
top-level genre key carried by chanson items, the payload, the semantic
text used by the NLP engine, and the similarity attached by
obtenir_scores_detailles. -/
structure Element where
  type : String
  id : String
  genre : Option String := none
  text : String := ""
  data : ElementData := {}
  similarite_semantique : Option ℚ := none
  deriving DecidableEq, Repr

/-- The scores dict attached to an element by calculer_scores_elements. -/
structure Scores where
  global : ℚ
  similarite_semantique : ℚ
  mood_match : ℚ
  preferences_likert : ℚ
  audio_features : ℚ
  genre_boost : ℚ
  deriving DecidableEq, Repr

/-- An element enriched with its scores dict. -/
structure ElementScore where
  element : Element
  scores : Scores
  deriving DecidableEq, Repr

/-! ## services.scoring_service : sub-scores -/

/-- Whether a feature name gets one of the three special normalizations. -/
def specialFeature (f : String) : Prop :=
  f = "loudness" ∨ f = "tempo" ∨ f = "bpm" ∨ f = "duration_ms"

instance (f : String) : Decidable (specialFeature f) := by
  unfold specialFeature; infer_instance

/-- Per-feature closeness, the if/elif chain in calculer_score_audio_match. -/
def featureScore (feature : String) (pref_val elem_val : ℚ) : ℚ :=
  if feature = "loudness" then 1 - min (|pref_val - elem_val| / 30) 1
  else if feature = "tempo" ∨ feature = "bpm" then 1 - min (|pref_val - elem_val| / 40) 1
  else if feature = "duration_ms" then 1 - min (|pref_val - elem_val| / 120000) 1
  else 1 - |pref_val - elem_val|

/-- The common feature keys: set(pref.keys()) & set(elem.keys()), as a
deduplicated filtered list (iteration order irrelevant to the mean). -/
def commonFeatures (pref elem : Dict) : List String :=
  (dkeys pref).dedup.filter (fun k => k ∈ dkeys elem)

/-- The per-feature score list built by the loop over common features. -/
def audioScores (pref elem : Dict) : List ℚ :=
  (commonFeatures pref elem).map
    (fun f => featureScore f (dlookup pref f) (dlookup elem f))

/-- SystemeScoring.calculer_score_audio_match. -/
def calculer_score_audio_match (preferences_user caracteristiques_element : Dict) : ℚ :=
  if preferences_user = [] ∨ caracteristiques_element = [] then 1/2
  else if audioScores preferences_user caracteristiques_element = [] then 1/2
  else (audioScores preferences_user caracteristiques_element).sum /
    (audioScores preferences_user caracteristiques_element).length

/-- The fixed related-moods table (moods_similaires) in
calculer_score_mood_match. -/
def moods_similaires (m : String) : List String :=
  if m = "joyeux" then ["festif", "motivant"]
  else if m = "triste" then ["mélancolique"]
  else if m = "énergique" then ["motivant", "intense", "festif"]
  else if m = "calme" then ["relaxant"]
  else if m = "mélancolique" then ["triste", "romantique"]
  else if m = "motivant" then ["énergique", "intense"]
  else if m = "romantique" then ["calme", "mélancolique"]
  else if m = "festif" then ["joyeux", "énergique"]
  else if m = "relaxant" then ["calme"]
  else if m = "intense" then ["énergique", "motivant"]
  else []

/-- The detected-moods scan: moods of the vocabulary whose literal name is
a substring of the lowercased user text. -/
def scanMoods (texte_user : String) : List String :=
  MOOD_MAPPINGS_keys.filter (fun m => containsSub m.data (pyLower texte_user).data)

/-- The detected set used by calculer_score_mood_match: a Python None or
empty list for moods_recherches is falsy, triggering the text scan. -/
def detectedMoods (texte_user : String) : Option (List String) → List String
  | none => scanMoods texte_user
  | some [] => scanMoods texte_user
  | some l => l

/-- SystemeScoring.calculer_score_mood_match. -/
def calculer_score_mood_match (texte_user mood_element : String)
    (moods_recherches : Option (List String)) : ℚ :=
  if mood_element ∈ detectedMoods texte_user moods_recherches then 1
  else if (detectedMoods texte_user moods_recherches).any
      (fun m => mood_element ∈ moods_similaires m) then 3/5
  else 3/10

/-- SystemeScoring.calculer_score_preference_likert: literal delegation. -/
def calculer_score_preference_likert (preferences_user caracteristiques_element : Dict) : ℚ :=
  calculer_score_audio_match preferences_user caracteristiques_element

/-- SystemeScoring.calculer_score_global: the weighted sum using WEIGHTS. -/
def calculer_score_global (similarite_semantique score_mood score_preferences score_audio : ℚ) : ℚ :=
  dlookup WEIGHTS "semantic_similarity" * similarite_semantique +
  dlookup WEIGHTS "mood_match" * score_mood +
  dlookup WEIGHTS "preference_likert" * score_preferences +
  dlookup WEIGHTS "audio_features" * score_audio

/-! ## services.scoring_service : calculer_scores_elements -/

/-- boost_map.get(niveau_ouverture, 0.40) in calculer_scores_elements. -/
def boost_map (niveau : ℤ) : ℚ :=
  if niveau = 1 then 4/5 else if niveau = 2 then 3/5 else if niveau = 3 then 2/5
  else if niveau = 4 then 1/4 else if niveau = 5 then 3/20 else 2/5

/-- Python max over a nonempty list (head-seeded left fold). -/
def pyMax (x : ℚ) (rest : List ℚ) : ℚ := rest.foldl max x

/-- Python max(l) if l else 0.5, as applied to the list of per-mood
scores of an ambiance-like item. -/
def pyMaxOrHalf : List ℚ → ℚ
  | [] => 1/2
  | s :: rest => pyMax s rest

/-- The local score_mood of the loop in calculer_scores_elements: mood
items score their own id; items exposing moods_associes take the max over
the list; everything else defaults to 0.5. -/
def moodScoreOf (texte_user : String) (moods_detectes : Option (List String))
    (element : Element) : ℚ :=
  if element.type = "mood" then
    calculer_score_mood_match texte_user element.id moods_detectes
  else match element.data.moods_associes with
    | some moods =>
        pyMaxOrHalf (moods.map (fun m => calculer_score_mood_match texte_user m moods_detectes))
    | none => 1/2

/-- The local score_audio: audio match when the payload carries average
characteristics, else the 0.5 default. -/
def audioScoreOf (preferences_user : Dict) (element : Element) : ℚ :=
  match element.data.caracteristiques_moyennes with
  | some cm => calculer_score_audio_match preferences_user cm
  | none => 1/2

/-- The local score_preferences: the Likert preference score over the
payload characteristics (empty dict when absent, via data.get). -/
def prefScoreOf (preferences_user : Dict) (element : Element) : ℚ :=
  calculer_score_preference_likert preferences_user
    (element.data.caracteristiques_moyennes.getD [])

/-- The pre-boost global score of one element. -/
def rawGlobalOf (preferences_user : Dict) (texte_user : String)
    (moods_detectes : Option (List String)) (element : Element) : ℚ :=
  calculer_score_global (element.similarite_semantique.getD 0)
    (moodScoreOf texte_user moods_detectes element)
    (prefScoreOf preferences_user element)
    (audioScoreOf preferences_user element)

/-- The genre-boost guard of calculer_scores_elements. -/
def boostCond (genres_preferes : List String) (element : Element) : Prop :=
  genres_preferes ≠ [] ∧ element.type = "chanson" ∧
    pyLower (element.genre.getD "") ∈ genres_preferes

instance (gp : List String) (e : Element) : Decidable (boostCond gp e) := by
  unfold boostCond; infer_instance

/-- The loop body of calculer_scores_elements: score one element. -/
def scoreElement (preferences_user : Dict) (texte_user : String)
    (moods_detectes : Option (List String)) (genres_preferes : List String)
    (niveau_ouverture : ℤ) (element : Element) : ElementScore :=
  let raw := rawGlobalOf preferences_user texte_user moods_detectes element
  let boosted : ℚ × ℚ :=
    if boostCond genres_preferes element then
      let gb := boost_map niveau_ouverture
      (min (raw * (1 + gb)) 1, gb)
    else (raw, 0)
  { element := element,
    scores :=
      { global := boosted.1,
        similarite_semantique := element.similarite_semantique.getD 0,
        mood_match := moodScoreOf texte_user moods_detectes element,
        preferences_likert := prefScoreOf preferences_user element,
        audio_features := audioScoreOf preferences_user element,
        genre_boost := boosted.2 } }

/-- SystemeScoring.calculer_scores_elements: score every element, then sort
by global score descending. -/
def calculer_scores_elements (elements_avec_similarite : List Element)
    (preferences_user : Dict) (texte_user : String)
    (moods_detectes : Option (List String)) (genres_preferes : Option (List String))
    (niveau_ouverture : ℤ) : List ElementScore :=
  let gp := genres_preferes.getD []
  let scored := elements_avec_similarite.map
    (scoreElement preferences_user texte_user moods_detectes gp niveau_ouverture)
  scored.mergeSort (fun a b => b.scores.global ≤ a.scores.global)

/-! ## services.scoring_service : generer_recommandations -/

/-- The deduplication key built inside generer_recommandations. -/
def uniqueKey (e : ElementScore) : String :=
  if e.element.type = "chanson" then
    pyLower ((e.element.data.nom.getD "") ++ "_" ++ (e.element.data.artiste.getD ""))
  else e.element.type ++ "_" ++ e.element.id

/-- The dedup loop: keep the first occurrence of each key; seen is the
set of keys already emitted. -/
def dedupLoop : List ElementScore → List String → List ElementScore
  | [], _ => []
  | e :: rest, seen =>
    if uniqueKey e ∈ seen then dedupLoop rest seen
    else e :: dedupLoop rest (uniqueKey e :: seen)

/-- Aggregate statistics over the non-deduplicated scored list. -/
structure Statistiques where
  score_moyen : ℚ
  score_max : ℚ
  score_min : ℚ
  nombre_elements_evalues : ℕ
  deriving DecidableEq, Repr

/-- The output bundle of generer_recommandations. -/
structure Recommandations where
  top_recommandations : List ElementScore
  top_par_type : List (String × List ElementScore)
  points_faibles : List ElementScore
  statistiques : Statistiques
  deriving DecidableEq, Repr

/-- SystemeScoring.generer_recommandations. -/
def generer_recommandations (elements_scores : List ElementScore)
    (top_n : ℕ) : Recommandations :=
  let elements_uniques := dedupLoop elements_scores []
  let top_recommandations := elements_uniques.take top_n
  let types := (elements_uniques.map (fun e => e.element.type)).dedup
  let top_par_type := types.map (fun t =>
    (t, (elements_uniques.filter (fun e => e.element.type = t)).take 3))
  let tries_asc := elements_scores.mergeSort (fun a b => a.scores.global ≤ b.scores.global)
  let points_faibles := tries_asc.take 5
  let globaux := elements_scores.map (fun e => e.scores.global)
  { top_recommandations := top_recommandations,
    top_par_type := top_par_type,
    points_faibles := points_faibles,
    statistiques :=
      { score_moyen := globaux.sum / globaux.length,
        score_max := pyMax (globaux.headD 0) globaux.tail,
        score_min := globaux.tail.foldl min (globaux.headD 0),
        nombre_elements_evalues := elements_scores.length } }

/-! ## services.nlp_service -/

/-- An embedding vector (numpy row). -/
abbrev Emb := List ℚ

/-- Errors a lookup can raise: the ValueError guarding an unprepared
referentiel, and the TypeError Python raises when referentiel_texts is
still None past that guard. -/
inductive NlpError where
  | notReady
  | noneType
  deriving DecidableEq, Repr

/-- MoteurNLP state.  The pretrained sentence-embedding model and the
cosine-similarity routine are external collaborators, carried as abstract
function fields; the two referentiel fields start as Python None. -/
structure MoteurNLP where
  encode : List String → List Emb
  cosine : Emb → List Emb → List ℚ
  referentiel_embeddings : Option (List Emb) := none
  referentiel_texts : Option (List Element) := none

/-- MoteurNLP.encoder_textes: empty input short-circuits to an empty
matrix, otherwise the model encodes the batch. -/
def encoder_textes (m : MoteurNLP) (textes : List String) : List Emb :=
  if textes = [] then [] else m.encode textes

/-- MoteurNLP.preparer_referentiel: store the texts and their batch
encoding, index-aligned. -/
def preparer_referentiel (m : MoteurNLP) (textes_referentiel : List Element) : MoteurNLP :=
  { m with
    referentiel_texts := some textes_referentiel,
    referentiel_embeddings := some (encoder_textes m (textes_referentiel.map (fun e => e.text))) }

/-- What the cache file deserializes to: a dict whose two keys are each
optionally present (a missing key raises KeyError at its access site). -/
structure CacheData where
  embeddings : Option (List Emb) := none
  texts : Option (List Element) := none

/-- The cache file on disk: none = file missing; some none = pickle.load
raises; some (some d) = deserialized dict d. -/
abbrev CacheFile := Option (Option CacheData)

/-- MoteurNLP.charger_cache.  The try block assigns
referentiel_embeddings before referentiel_texts, so a KeyError on the
texts key leaves the embeddings assignment in place while returning
False. -/
def charger_cache (m : MoteurNLP) (file : CacheFile) : Bool × MoteurNLP :=
  match file with
  | none => (false, m)
  | some none => (false, m)
  | some (some cache_data) =>
    match cache_data.embeddings with
    | none => (false, m)
    | some emb =>
      let m1 := { m with referentiel_embeddings := some emb }
      match cache_data.texts with
      | none => (false, m1)
      | some ts => (true, { m1 with referentiel_texts := some ts })

/-- Whether the index is not ready: the guard tested by both lookups. -/
def notReadyState (m : MoteurNLP) : Prop := m.referentiel_embeddings = none

instance (m : MoteurNLP) : Decidable (notReadyState m) := by
  unfold notReadyState; infer_instance

/-- MoteurNLP.rechercher_similaires: ValueError when the referentiel is
unprepared, else per-item cosine scores filtered by type, sorted
descending, truncated to top_k. -/
def rechercher_similaires (m : MoteurNLP) (requete : String) (top_k : ℕ)
    (filtre_type : Option String) : Except NlpError (List (Element × ℚ)) :=
  match m.referentiel_embeddings with
  | none => .error .notReady
  | some embs =>
    match m.referentiel_texts with
    | none => .error .noneType
    | some texts =>
      let embedding_requete := encoder_textes m [requete]
      let similarities := m.cosine (embedding_requete.headD []) embs
      let resultats := (texts.zip similarities).filter (fun p =>
        match filtre_type with
        | none => true
        | some t => p.1.type = t)
      .ok ((resultats.mergeSort (fun a b => b.2 ≤ a.2)).take top_k)

/-- MoteurNLP.obtenir_scores_detailles: same guard, then every element
copied with its similarity attached, sorted descending. -/
def obtenir_scores_detailles (m : MoteurNLP) (requete : String) :
    Except NlpError (List Element) :=
  match m.referentiel_embeddings with
  | none => .error .notReady
  | some embs =>
    match m.referentiel_texts with
    | none => .error .noneType
    | some texts =>
      let embedding_requete := encoder_textes m [requete]
      let similarities := m.cosine (embedding_requete.headD []) embs
      let resultats := (texts.zip similarities).map (fun p =>
        { p.1 with similarite_semantique := some p.2 })
      .ok (resultats.mergeSort (fun a b =>
        b.similarite_semantique.getD 0 ≤ a.similarite_semantique.getD 0))

/-! ## services.questionnaire_service -/

/-- A raw Likert answer value as submitted: a Python int, or any
non-integer value. -/
inductive LikertVal where
  | vint (n : ℤ)
  | other
  deriving DecidableEq, Repr

/-- Raw lookup in the submitted likert dict. -/
def plookup : List (String × LikertVal) → String → Option LikertVal
  | [], _ => none
  | (k1, v) :: rest, k => if k1 = k then some v else plookup rest k

/-- The eight Likert questions: id and dimension, from
QuestionnaireService._init_questions_likert. -/
def questions_likert : List (String × String) :=
  [("q1_energie", "énergie"), ("q2_calme", "calme"), ("q3_danse", "danceability"),
   ("q4_joyeux", "valence"), ("q5_acoustique", "acousticness"),
   ("q6_intensite", "loudness"), ("q7_rythme", "bpm"), ("q8_nouveaute", "ouverture")]

/-- A validated structured Likert answer: question id mapped to its value
and dimension. -/
abbrev LikertStruct := List (String × (ℤ × String))

/-- The Likert half of QuestionnaireService.collecter_reponses_dict: keep
an answer only when present, an int, and within 1..5. -/
def collecter_likert (likert : List (String × LikertVal)) : LikertStruct :=
  questions_likert.filterMap (fun q =>
    match plookup likert q.1 with
    | some (.vint v) => if 1 ≤ v ∧ v ≤ 5 then some (q.1, (v, q.2)) else none
    | some .other => none
    | none => none)

/-- QuestionnaireService.extraire_preferences_audio: fold the structured
Likert answers into the normalized preference dict. -/
def extraire_preferences_audio (likert_responses : LikertStruct) : Dict :=
  likert_responses.foldl (fun preferences entry =>
    let valeur : ℚ := entry.2.1
    let dimension := entry.2.2
    if dimension = "énergie" then dset preferences "energy" ((valeur - 1) / 4)
    else if dimension = "calme" then dset preferences "calmness" ((valeur - 1) / 4)
    else if dimension = "danceability" then dset preferences "danceability" ((valeur - 1) / 4)
    else if dimension = "valence" then dset preferences "valence" ((valeur - 1) / 4)
    else if dimension = "acousticness" then dset preferences "acousticness" ((valeur - 1) / 4)
    else if dimension = "loudness" then dset preferences "loudness" (-30 + (valeur - 1) * (15/2))
    else if dimension = "bpm" then dset preferences "tempo" (60 + (valeur - 1) * 30)
    else if dimension = "ouverture" then dset preferences "openness" (valeur / 5)
    else preferences) []

/-! ## Concrete fixtures used by witnesses and counterexamples -/

/-- A scores record carrying just a global value. -/
abbrev mkScores (g : ℚ) : Scores :=
  { global := g, similarite_semantique := 0, mood_match := 0,
    preferences_likert := 0, audio_features := 0, genre_boost := 0 }

/-- A chanson scored element: Night by Ava, global 2. -/
abbrev chansonNightAva : ElementScore :=
  { element :=
      { type := "chanson", id := "s1",
        data := { nom := some "Night", artiste := some "Ava" } },
    scores := mkScores 2 }

/-- The same song under a different id and case, global 1. -/
abbrev chansonNightAvaDup : ElementScore :=
  { element :=
      { type := "chanson", id := "s2",
        data := { nom := some "NIGHT", artiste := some "ava" } },
    scores := mkScores 1 }

/-- A fresh engine whose model and cosine are trivial concrete stand-ins. -/
abbrev mNLP0 : MoteurNLP :=
  { encode := fun ts => ts.map (fun _ => [1]),
    cosine := fun _ embs => embs.map (fun _ => 1) }

/-- One referential text element. -/
abbrev eRef : Element := { type := "genre", id := "rock", text := "rock" }

/-- A well-formed cache file. -/
abbrev cacheOkFile : CacheFile :=
  some (some { embeddings := some [[1]], texts := some [eRef] })

/-- A cache file that deserializes but lacks the texts key. -/
abbrev cachePartialFile : CacheFile := some (some { embeddings := some [[1]] })

/-- A submitted likert dict with one valid and one out-of-range answer. -/
abbrev likertInput : List (String × LikertVal) :=
  [("q1_energie", .vint 4), ("q2_calme", .vint 9)]

/-! ## Helper lemmas -/

theorem calculer_score_global_eq (s m p a : ℚ) :
    calculer_score_global s m p a = (1/2) * s + (1/5) * m + (1/5) * p + (1/10) * a := rfl

theorem boost_map_pos (n : ℤ) : 0 < boost_map n := by
  unfold boost_map; split_ifs <;> norm_num

theorem scoreElement_fields (pu : Dict) (tu : String) (md : Option (List String))
    (gp : List String) (no : ℤ) (e : Element) :
    (scoreElement pu tu md gp no e).element = e ∧
    (scoreElement pu tu md gp no e).scores.similarite_semantique =
      e.similarite_semantique.getD 0 ∧
    (scoreElement pu tu md gp no e).scores.mood_match = moodScoreOf tu md e ∧
    (scoreElement pu tu md gp no e).scores.preferences_likert = prefScoreOf pu e ∧
    (scoreElement pu tu md gp no e).scores.audio_features = audioScoreOf pu e := by
  refine ⟨rfl, rfl, rfl, rfl, rfl⟩

theorem scoreElement_boost_pos (pu : Dict) (tu : String) (md : Option (List String))
    (gp : List String) (no : ℤ) (e : Element) (h : boostCond gp e) :
    (scoreElement pu tu md gp no e).scores.global =
      min (rawGlobalOf pu tu md e * (1 + boost_map no)) 1 ∧
    (scoreElement pu tu md gp no e).scores.genre_boost = boost_map no := by
  unfold scoreElement
  simp only [if_pos h]
  constructor <;> trivial

theorem scoreElement_boost_neg (pu : Dict) (tu : String) (md : Option (List String))
    (gp : List String) (no : ℤ) (e : Element) (h : ¬ boostCond gp e) :
    (scoreElement pu tu md gp no e).scores.global = rawGlobalOf pu tu md e ∧
    (scoreElement pu tu md gp no e).scores.genre_boost = 0 := by
  unfold scoreElement
  simp only [if_neg h]
  constructor <;> trivial

theorem mood_match_cases (t m : String) (d : Option (List String)) :
    calculer_score_mood_match t m d = 1 ∨ calculer_score_mood_match t m d = 3/5 ∨
      calculer_score_mood_match t m d = 3/10 := by
  unfold calculer_score_mood_match
  split_ifs <;> simp

theorem mood_match_le_one (t m : String) (d : Option (List String)) :
    calculer_score_mood_match t m d ≤ 1 := by
  rcases mood_match_cases t m d with h | h | h <;> rw [h] <;> norm_num

theorem featureScore_le_one (f : String) (p e : ℚ) : featureScore f p e ≤ 1 := by
  unfold featureScore
  split_ifs with h1 h2 h3
  · have h0 : (0:ℚ) ≤ min (|p - e| / 30) 1 := le_min (by positivity) (by norm_num)
    linarith
  · have h0 : (0:ℚ) ≤ min (|p - e| / 40) 1 := le_min (by positivity) (by norm_num)
    linarith
  · have h0 : (0:ℚ) ≤ min (|p - e| / 120000) 1 := le_min (by positivity) (by norm_num)
    linarith
  · linarith [abs_nonneg (p - e)]

theorem audio_match_le_one (pref feat : Dict) :
    calculer_score_audio_match pref feat ≤ 1 := by
  unfold calculer_score_audio_match
  split_ifs with h1 h2
  · norm_num
  · norm_num
  · have hall : ∀ x ∈ audioScores pref feat, x ≤ (1:ℚ) := by
      intro x hx
      obtain ⟨f, _, rfl⟩ := List.mem_map.mp hx
      exact featureScore_le_one f _ _
    have hsum := List.sum_le_card_nsmul _ _ hall
    have hpos : 0 < ((audioScores pref feat).length : ℚ) := by
      exact_mod_cast List.length_pos.mpr h2
    rw [div_le_one hpos]
    simpa using hsum

theorem pyMax_le (c : ℚ) : ∀ (rest : List ℚ) (x : ℚ),
    x ≤ c → (∀ y ∈ rest, y ≤ c) → pyMax x rest ≤ c := by
  intro rest
  induction rest with
  | nil => intro x hx _; exact hx
  | cons y ys ih =>
      intro x hx hall
      unfold pyMax at ih ⊢
      simp only [List.foldl_cons]
      exact ih (max x y) (max_le hx (hall y (by simp)))
        (fun z hz => hall z (by simp [hz]))

theorem pyMaxOrHalf_le (c : ℚ) (l : List ℚ) (hall : ∀ y ∈ l, y ≤ c) (hc : (1:ℚ)/2 ≤ c) :
    pyMaxOrHalf l ≤ c := by
  cases l with
  | nil => simpa [pyMaxOrHalf] using hc
  | cons s rest =>
      exact pyMax_le c rest s (hall s (by simp)) (fun z hz => hall z (by simp [hz]))

theorem moodScoreOf_le_one (tu : String) (md : Option (List String)) (e : Element) :
    moodScoreOf tu md e ≤ 1 := by
  unfold moodScoreOf
  split_ifs with h
  · exact mood_match_le_one tu e.id md
  · cases hma : e.data.moods_associes with
    | none => norm_num
    | some moods =>
        exact pyMaxOrHalf_le 1 (moods.map (fun m => calculer_score_mood_match tu m md))
          (fun y hy => by
            obtain ⟨m, _, rfl⟩ := List.mem_map.mp hy
            exact mood_match_le_one tu m md)
          (by norm_num)

theorem audioScoreOf_le_one (pu : Dict) (e : Element) : audioScoreOf pu e ≤ 1 := by
  unfold audioScoreOf
  cases e.data.caracteristiques_moyennes with
  | none => norm_num
  | some cm => exact audio_match_le_one pu cm

theorem rawGlobalOf_le_one (pu : Dict) (tu : String) (md : Option (List String))
    (e : Element) (hs : e.similarite_semantique.getD 0 ≤ 1) :
    rawGlobalOf pu tu md e ≤ 1 := by
  unfold rawGlobalOf
  rw [calculer_score_global_eq]
  have h1 := moodScoreOf_le_one tu md e
  have h2 : prefScoreOf pu e ≤ 1 := audio_match_le_one pu _
  have h3 := audioScoreOf_le_one pu e
  linarith

/-! ## Claim theorems -/

/-- C1: the global score before any genre boost is exactly the fixed
linear combination 0.5·sem + 0.2·mood + 0.2·pref + 0.1·audio of the four
sub-scores, the weights come from the WEIGHTS table which sums to 1, and
no other normalization is applied: for every scored element whose genre
boost did not fire, the recorded global score equals that combination of
its recorded sub-scores. -/
theorem C1_global_score_linear :
    (∀ s m p a : ℚ, calculer_score_global s m p a =
      (1/2) * s + (1/5) * m + (1/5) * p + (1/10) * a) ∧
    (WEIGHTS.map Prod.snd).sum = 1 ∧
    dlookup WEIGHTS "semantic_similarity" = 1/2 ∧
    dlookup WEIGHTS "mood_match" = 1/5 ∧
    dlookup WEIGHTS "preference_likert" = 1/5 ∧
    dlookup WEIGHTS "audio_features" = 1/10 ∧
    (∀ (pu : Dict) (tu : String) (md : Option (List String)) (gp : List String)
        (no : ℤ) (e : Element),
      (scoreElement pu tu md gp no e).scores.genre_boost = 0 →
      (scoreElement pu tu md gp no e).scores.global =
        (1/2) * (scoreElement pu tu md gp no e).scores.similarite_semantique +
        (1/5) * (scoreElement pu tu md gp no e).scores.mood_match +
        (1/5) * (scoreElement pu tu md gp no e).scores.preferences_likert +
        (1/10) * (scoreElement pu tu md gp no e).scores.audio_features) := by
  refine ⟨fun s m p a => rfl, by norm_num [WEIGHTS], rfl, rfl, rfl, rfl, ?_⟩
  intro pu tu md gp no e hb
  by_cases h : boostCond gp e
  · exfalso
    have := (scoreElement_boost_pos pu tu md gp no e h).2
    rw [this] at hb
    exact absurd hb (ne_of_gt (boost_map_pos no))
  · have hg := (scoreElement_boost_neg pu tu md gp no e h).1
    rw [hg]
    rfl

/-- C1 witness: a concrete unboosted element realizes the hypothesis. -/
theorem C1_global_score_linear_witness :
    (scoreElement [] "travail" none [] 3
      { type := "genre", id := "rock" }).scores.genre_boost = 0 ∧
    (scoreElement [] "travail" none [] 3
      { type := "genre", id := "rock" }).scores.global =
      (1/2) * (scoreElement [] "travail" none [] 3
        { type := "genre", id := "rock" }).scores.similarite_semantique +
      (1/5) * (scoreElement [] "travail" none [] 3
        { type := "genre", id := "rock" }).scores.mood_match +
      (1/5) * (scoreElement [] "travail" none [] 3
        { type := "genre", id := "rock" }).scores.preferences_likert +
      (1/10) * (scoreElement [] "travail" none [] 3
        { type := "genre", id := "rock" }).scores.audio_features :=
  ⟨by decide, C1_global_score_linear.2.2.2.2.2.2 [] "travail" none [] 3
    { type := "genre", id := "rock" } (by decide)⟩

/-- C6: preference_match is a literal delegation to audio_match on the
same two mappings, and inside the scoring loop the two sub-scores are
computed from the same user-preference dict and the same item feature
dict, so they coincide on every scored element. -/
theorem C6_preference_match_is_audio_match :
    (∀ preferences_user caracteristiques_element : Dict,
      calculer_score_preference_likert preferences_user caracteristiques_element =
        calculer_score_audio_match preferences_user caracteristiques_element) ∧
    (∀ (pu : Dict) (tu : String) (md : Option (List String)) (gp : List String)
        (no : ℤ) (e : Element),
      (scoreElement pu tu md gp no e).scores.preferences_likert =
        (scoreElement pu tu md gp no e).scores.audio_features) := by
  constructor
  · intro pu ce; rfl
  · intro pu tu md gp no e
    have h3 := (scoreElement_fields pu tu md gp no e).2.2.2.1
    have h4 := (scoreElement_fields pu tu md gp no e).2.2.2.2
    rw [h3, h4]
    unfold prefScoreOf audioScoreOf calculer_score_preference_likert
    cases hcm : e.data.caracteristiques_moyennes with
    | none =>
        simp only [Option.getD_none]
        unfold calculer_score_audio_match
        rw [if_pos (Or.inr rfl)]
    | some cm => simp only [Option.getD_some]

/-- C10: in the scoring loop, a non-mood item whose payload has no
moods_associes list gets the neutral mood sub-score 0.5 (which differs
from the 0.3 floor of mood_match), an item whose payload has no audio
characteristics gets the neutral audio sub-score 0.5, and a mood item
always gets its mood sub-score from mood_match applied to its own id. -/
theorem C10_default_subscores (pu : Dict) (tu : String) (md : Option (List String))
    (gp : List String) (no : ℤ) (e : Element) :
    (e.type ≠ "mood" → e.data.moods_associes = none →
      (scoreElement pu tu md gp no e).scores.mood_match = 1/2) ∧
    ((1:ℚ)/2 ≠ 3/10) ∧
    (e.data.caracteristiques_moyennes = none →
      (scoreElement pu tu md gp no e).scores.audio_features = 1/2) ∧
    (e.type = "mood" →
      (scoreElement pu tu md gp no e).scores.mood_match =
        calculer_score_mood_match tu e.id md) := by
  have hm := (scoreElement_fields pu tu md gp no e).2.2.1
  have ha := (scoreElement_fields pu tu md gp no e).2.2.2.2
  refine ⟨?_, by norm_num, ?_, ?_⟩
  · intro hty hma
    rw [hm]
    unfold moodScoreOf
    rw [if_neg hty, hma]
  · intro hcm
    rw [ha]
    unfold audioScoreOf
    rw [hcm]
  · intro hty
    rw [hm]
    unfold moodScoreOf
    rw [if_pos hty]

/-- C10 witness: concrete playlist and mood items realize the three
hypotheses. -/
theorem C10_default_subscores_witness :
    (scoreElement [] "du rock" none [] 3 { type := "playlist", id := "p" }).scores.mood_match
      = 1/2 ∧
    (scoreElement [] "du rock" none [] 3 { type := "playlist", id := "p" }).scores.audio_features
      = 1/2 ∧
    (scoreElement [] "du rock" none [] 3 { type := "mood", id := "joyeux" }).scores.mood_match
      = calculer_score_mood_match "du rock" "joyeux" none :=
  ⟨(C10_default_subscores [] "du rock" none [] 3 { type := "playlist", id := "p" }).1
      (by decide) rfl,
   (C10_default_subscores [] "du rock" none [] 3 { type := "playlist", id := "p" }).2.2.1 rfl,
   (C10_default_subscores [] "du rock" none [] 3 { type := "mood", id := "joyeux" }).2.2.2 rfl⟩

/-- C2: the genre boost fires exactly for chanson items whose folded
genre tag sits in the declared preferred-genre list; its factor follows
the fixed inverse table of the openness level with 0.40 out of range;
when it fires the global score becomes min(global·(1+boost), 1), so a
boosted score never exceeds 1; under the cosine bound sem ≤ 1 every
post-boost global score is at most 1; and scoring identical inputs twice
gives identical results. -/
theorem C2_genre_boost_behaviour (pu : Dict) (tu : String) (md : Option (List String))
    (gp : List String) (no : ℤ) (e : Element) :
    ((scoreElement pu tu md gp no e).scores.genre_boost =
      if boostCond gp e then boost_map no else 0) ∧
    (boostCond gp e ↔ gp ≠ [] ∧ e.type = "chanson" ∧
      pyLower (e.genre.getD "") ∈ gp) ∧
    (boost_map 1 = 4/5 ∧ boost_map 2 = 3/5 ∧ boost_map 3 = 2/5 ∧
      boost_map 4 = 1/4 ∧ boost_map 5 = 3/20) ∧
    (no ≠ 1 → no ≠ 2 → no ≠ 3 → no ≠ 4 → no ≠ 5 → boost_map no = 2/5) ∧
    (boostCond gp e →
      (scoreElement pu tu md gp no e).scores.global =
        min (rawGlobalOf pu tu md e * (1 + boost_map no)) 1 ∧
      (scoreElement pu tu md gp no e).scores.global ≤ 1) ∧
    (e.similarite_semantique.getD 0 ≤ 1 →
      (scoreElement pu tu md gp no e).scores.global ≤ 1) ∧
    (∀ (elements : List Element),
      calculer_scores_elements elements pu tu md (some gp) no =
        calculer_scores_elements elements pu tu md (some gp) no) := by
  refine ⟨?_, Iff.rfl, ⟨rfl, rfl, rfl, rfl, rfl⟩, ?_, ?_, ?_, fun elements => rfl⟩
  · by_cases h : boostCond gp e
    · rw [if_pos h]
      exact (scoreElement_boost_pos pu tu md gp no e h).2
    · rw [if_neg h]
      exact (scoreElement_boost_neg pu tu md gp no e h).2
  · intro h1 h2 h3 h4 h5
    unfold boost_map
    rw [if_neg h1, if_neg h2, if_neg h3, if_neg h4, if_neg h5]
  · intro h
    have hg := (scoreElement_boost_pos pu tu md gp no e h).1
    exact ⟨hg, by rw [hg]; exact min_le_right _ _⟩
  · intro hs
    by_cases h : boostCond gp e
    · rw [(scoreElement_boost_pos pu tu md gp no e h).1]
      exact min_le_right _ _
    · rw [(scoreElement_boost_neg pu tu md gp no e h).1]
      exact rawGlobalOf_le_one pu tu md e hs

/-- C2 witness: a preferred-genre chanson at out-of-range openness level
7 realizes every hypothesis. -/
theorem C2_genre_boost_behaviour_witness :
    boost_map 7 = 2/5 ∧
    ((scoreElement [] "t" none ["rock"] 7
        { type := "chanson", id := "s1", genre := some "Rock",
          similarite_semantique := some 1 }).scores.global =
      min (rawGlobalOf [] "t" none
        { type := "chanson", id := "s1", genre := some "Rock",
          similarite_semantique := some 1 } * (1 + boost_map 7)) 1) ∧
    (scoreElement [] "t" none ["rock"] 7
      { type := "chanson", id := "s1", genre := some "Rock",
        similarite_semantique := some 1 }).scores.global ≤ 1 :=
  ⟨(C2_genre_boost_behaviour [] "t" none ["rock"] 7
      { type := "chanson", id := "s1", genre := some "Rock",
        similarite_semantique := some 1 }).2.2.2.1
      (by decide) (by decide) (by decide) (by decide) (by decide),
   ((C2_genre_boost_behaviour [] "t" none ["rock"] 7
      { type := "chanson", id := "s1", genre := some "Rock",
        similarite_semantique := some 1 }).2.2.2.2.1 (by decide)).1,
   (C2_genre_boost_behaviour [] "t" none ["rock"] 7
      { type := "chanson", id := "s1", genre := some "Rock",
        similarite_semantique := some 1 }).2.2.2.2.2.1 (by decide)⟩

theorem detectedMoods_some_ne (t : String) (l : List String) (h : l ≠ []) :
    detectedMoods t (some l) = l := by
  cases l with
  | nil => exact absurd rfl h
  | cons a as => rfl

theorem detectedMoods_none (t : String) : detectedMoods t none = scanMoods t := rfl

/-- C4 counterexample: the mood name zen occurs verbatim in the user text
zen, yet mood_match(zen, zen, None) returns the 0.3 floor and not 1.0,
because the substring scan only covers the fixed mood vocabulary. -/
theorem C4_mood_match_counterexample :
    containsSub (pyLower "zen").data (pyLower "zen").data = true ∧
    calculer_score_mood_match "zen" "zen" none = 3/10 ∧
    (3/10 : ℚ) ≠ 1 :=
  ⟨by decide, rfl, by norm_num⟩

/-- C4 (amended): with a nonempty detected set, mood_match returns 1.0
when the item mood is in the set, 0.6 when it is related to a detected
mood, and the 0.3 floor otherwise; with None supplied the detected set is
the vocabulary moods whose literal name occurs in the lowercased text, so
mood_match(text, mood, None) = 1.0 whenever mood is one of the vocabulary
names and occurs in the lowercased text (a mood outside the vocabulary is
never detected by the scan), and the floor 0.3 is returned when neither
the mood nor any related mood is detected. -/
theorem C4_mood_match_amended :
    (∀ (t mood : String) (l : List String), l ≠ [] →
      (mood ∈ l → calculer_score_mood_match t mood (some l) = 1) ∧
      (mood ∉ l → l.any (fun m => mood ∈ moods_similaires m) = true →
        calculer_score_mood_match t mood (some l) = 3/5) ∧
      (mood ∉ l → l.any (fun m => mood ∈ moods_similaires m) = false →
        calculer_score_mood_match t mood (some l) = 3/10)) ∧
    (∀ t mood : String, mood ∈ MOOD_MAPPINGS_keys →
      containsSub mood.data (pyLower t).data = true →
      calculer_score_mood_match t mood none = 1) ∧
    (∀ t mood : String, mood ∉ scanMoods t →
      (scanMoods t).any (fun m => mood ∈ moods_similaires m) = false →
      calculer_score_mood_match t mood none = 3/10) := by
  refine ⟨?_, ?_, ?_⟩
  · intro t mood l hl
    refine ⟨?_, ?_, ?_⟩
    · intro hm
      unfold calculer_score_mood_match
      rw [detectedMoods_some_ne t l hl, if_pos hm]
    · intro hnm hany
      unfold calculer_score_mood_match
      rw [detectedMoods_some_ne t l hl, if_neg hnm, if_pos hany]
    · intro hnm hany
      unfold calculer_score_mood_match
      rw [detectedMoods_some_ne t l hl, if_neg hnm,
        if_neg (by simp [hany])]
  · intro t mood hvoc hsub
    have hmem : mood ∈ detectedMoods t none :=
      List.mem_filter.mpr ⟨hvoc, hsub⟩
    unfold calculer_score_mood_match
    rw [if_pos hmem]
  · intro t mood hnm hany
    unfold calculer_score_mood_match
    rw [detectedMoods_none, if_neg hnm, if_neg (by simp [hany])]

/-- C4 amended witness: the related-mood and floor cases at concrete
inputs. -/
theorem C4_mood_match_amended_witness :
    calculer_score_mood_match "une soirée calme" "calme" none = 1 ∧
    calculer_score_mood_match "t" "festif" (some ["joyeux"]) = 3/5 ∧
    calculer_score_mood_match "rien de special" "intense" none = 3/10 :=
  ⟨C4_mood_match_amended.2.1 "une soirée calme" "calme" (by decide) (by decide),
   (C4_mood_match_amended.1 "t" "festif" ["joyeux"] (by decide)).2.1
     (by decide) (by decide),
   C4_mood_match_amended.2.2 "rien de special" "intense" (by decide) (by decide)⟩

theorem mem_dedupLoop_not_seen (e : ElementScore) :
    ∀ (l : List ElementScore) (seen : List String),
      e ∈ dedupLoop l seen → uniqueKey e ∉ seen := by
  intro l
  induction l with
  | nil => intro seen h; simp [dedupLoop] at h
  | cons x xs ih =>
      intro seen h
      unfold dedupLoop at h
      by_cases hx : uniqueKey x ∈ seen
      · rw [if_pos hx] at h
        exact ih seen h
      · rw [if_neg hx] at h
        rcases List.mem_cons.mp h with rfl | hmem
        · exact hx
        · intro hcon
          exact ih _ hmem (List.mem_cons_of_mem _ hcon)

theorem mem_dedupLoop_decomp (e : ElementScore) :
    ∀ (l : List ElementScore) (seen : List String), e ∈ dedupLoop l seen →
      ∃ l1 l2, l = l1 ++ e :: l2 ∧
        ∀ x ∈ l1, uniqueKey x = uniqueKey e → uniqueKey x ∈ seen := by
  intro l
  induction l with
  | nil => intro seen h; simp [dedupLoop] at h
  | cons x xs ih =>
      intro seen h
      unfold dedupLoop at h
      by_cases hx : uniqueKey x ∈ seen
      · rw [if_pos hx] at h
        obtain ⟨l1, l2, hdec, hprop⟩ := ih seen h
        refine ⟨x :: l1, l2, by rw [hdec]; rfl, ?_⟩
        intro y hy hk
        rcases List.mem_cons.mp hy with rfl | hy2
        · exact hx
        · exact hprop y hy2 hk
      · rw [if_neg hx] at h
        rcases List.mem_cons.mp h with rfl | hmem
        · exact ⟨[], xs, rfl, by simp⟩
        · obtain ⟨l1, l2, hdec, hprop⟩ := ih _ hmem
          have hne : uniqueKey e ≠ uniqueKey x := by
            intro hc
            exact mem_dedupLoop_not_seen e xs _ hmem
              (by rw [hc]; exact List.mem_cons_self _ _)
          refine ⟨x :: l1, l2, by rw [hdec]; rfl, ?_⟩
          intro y hy hk
          rcases List.mem_cons.mp hy with rfl | hy2
          · exact absurd hk.symm hne
          · rcases List.mem_cons.mp (hprop y hy2 hk) with h1 | h2
            · exact absurd (hk.symm.trans h1) hne
            · exact h2

/-- C5: the recommendation generator keys chanson items by the lowercased
title_artist string and every other item by kind_id; on a list sorted by
global score descending the first occurrence of a key wins, top_n is the
first n deduplicated items, and of two song items with the same key but a
lower and a higher global score the lower-scoring one never reaches
top_n. -/
theorem C5_dedup_top_n (es : List ElementScore) (n : ℕ) (e1 e2 : ElementScore)
    (hsort : es.Pairwise (fun a b => b.scores.global ≤ a.scores.global))
    (h1 : e1 ∈ es) (hk : uniqueKey e1 = uniqueKey e2)
    (hg : e2.scores.global < e1.scores.global) :
    ((generer_recommandations es n).top_recommandations = (dedupLoop es []).take n) ∧
    e2 ∉ (generer_recommandations es n).top_recommandations ∧
    (∀ x : ElementScore, x.element.type = "chanson" →
      uniqueKey x = pyLower ((x.element.data.nom.getD "") ++ "_" ++
        (x.element.data.artiste.getD ""))) ∧
    (∀ x : ElementScore, x.element.type ≠ "chanson" →
      uniqueKey x = x.element.type ++ "_" ++ x.element.id) := by
  have htop : (generer_recommandations es n).top_recommandations =
      (dedupLoop es []).take n := rfl
  refine ⟨htop, ?_, ?_, ?_⟩
  · rw [htop]
    intro htake
    have hmem : e2 ∈ dedupLoop es [] := List.take_subset n _ htake
    obtain ⟨l1, l2, hdec, hprop⟩ := mem_dedupLoop_decomp e2 es [] hmem
    have hnodup1 : ∀ x ∈ l1, uniqueKey x ≠ uniqueKey e2 := by
      intro x hx hc
      simpa using hprop x hx hc
    rw [hdec] at h1
    rcases List.mem_append.mp h1 with hin1 | hin2
    · exact hnodup1 e1 hin1 hk
    · rcases List.mem_cons.mp hin2 with rfl | hin3
      · exact absurd hg (lt_irrefl _)
      · rw [hdec] at hsort
        have hp2 := (List.pairwise_append.mp hsort).2.1
        have hle : e1.scores.global ≤ e2.scores.global :=
          (List.pairwise_cons.mp hp2).1 e1 hin3
        exact absurd (lt_of_lt_of_le hg hle) (lt_irrefl _)
  · intro x hx
    unfold uniqueKey
    rw [if_pos hx]
  · intro x hx
    unfold uniqueKey
    rw [if_neg hx]

/-- C5 witness: two copies of the same song, different ids and scores, in
a descending list: the lower-scoring duplicate is dropped from top_n. -/
theorem C5_dedup_top_n_witness :
    chansonNightAvaDup ∉
      (generer_recommandations [chansonNightAva, chansonNightAvaDup]
        TOP_N_RECOMMENDATIONS).top_recommandations :=
  (C5_dedup_top_n [chansonNightAva, chansonNightAvaDup] TOP_N_RECOMMENDATIONS
    chansonNightAva chansonNightAvaDup (by decide) (by decide) (by decide)
    (by decide)).2.1

/-- C7 counterexample: a cache file that deserializes to a dict holding
an embeddings entry but no texts entry makes charger_cache return false
while leaving the stored embeddings assigned, so the state is no longer
not-ready and the subsequent lookup fails with the None-subscript error
instead of the NotReady error. -/
theorem C7_charger_cache_counterexample :
    (charger_cache mNLP0 cachePartialFile).1 = false ∧
    ¬ notReadyState (charger_cache mNLP0 cachePartialFile).2 ∧
    rechercher_similaires (charger_cache mNLP0 cachePartialFile).2 "q" 10 none =
      .error .noneType ∧
    NlpError.noneType ≠ NlpError.notReady := by
  refine ⟨rfl, by decide, rfl, by decide⟩

/-- C7 (amended): on a missing cache file, or on one whose
deserialization raises, charger_cache returns false without raising and
leaves the engine state unchanged, hence still not-ready; but when the
file deserializes to a mapping with embeddings and without texts it
returns false with the embeddings already assigned, so the state is no
longer not-ready. -/
theorem C7_charger_cache_amended (m : MoteurNLP) (file : CacheFile)
    (h : file = none ∨ file = some none) :
    (charger_cache m file).1 = false ∧
    (charger_cache m file).2 = m ∧
    (notReadyState m → notReadyState (charger_cache m file).2) := by
  rcases h with rfl | rfl
  · exact ⟨rfl, rfl, fun hnr => hnr⟩
  · exact ⟨rfl, rfl, fun hnr => hnr⟩

/-- C7 amended witness: the missing-file case at a concrete engine. -/
theorem C7_charger_cache_amended_witness :
    (charger_cache mNLP0 none).1 = false ∧
    (charger_cache mNLP0 none).2 = mNLP0 ∧
    (notReadyState mNLP0 → notReadyState (charger_cache mNLP0 none).2) :=
  C7_charger_cache_amended mNLP0 none (Or.inl rfl)

/-- C8: a similarity lookup on a not-ready engine fails with the
NotReady error, for both rechercher_similaires and
obtenir_scores_detailles; after preparer_referentiel, or after a
charger_cache call that returned true, both lookups return an ok
result. -/
theorem C8_not_ready_guard (m : MoteurNLP) (q : String) (k : ℕ) (ft : Option String) :
    (notReadyState m →
      rechercher_similaires m q k ft = .error .notReady ∧
      obtenir_scores_detailles m q = .error .notReady) ∧
    (∀ ts : List Element,
      (∃ r, rechercher_similaires (preparer_referentiel m ts) q k ft = .ok r) ∧
      (∃ r, obtenir_scores_detailles (preparer_referentiel m ts) q = .ok r)) ∧
    (∀ file : CacheFile, (charger_cache m file).1 = true →
      (∃ r, rechercher_similaires (charger_cache m file).2 q k ft = .ok r) ∧
      (∃ r, obtenir_scores_detailles (charger_cache m file).2 q = .ok r)) := by
  refine ⟨?_, ?_, ?_⟩
  · intro h
    have he : m.referentiel_embeddings = none := h
    unfold rechercher_similaires obtenir_scores_detailles
    rw [he]
    exact ⟨rfl, rfl⟩
  · intro ts
    exact ⟨⟨_, rfl⟩, ⟨_, rfl⟩⟩
  · intro file htrue
    match file with
    | none => simp [charger_cache] at htrue
    | some none => simp [charger_cache] at htrue
    | some (some cd) =>
        obtain ⟨embOpt, txtOpt⟩ := cd
        match embOpt, txtOpt with
        | none, _ => simp [charger_cache] at htrue
        | some emb, none => simp [charger_cache] at htrue
        | some emb, some ts => exact ⟨⟨_, rfl⟩, ⟨_, rfl⟩⟩

/-- C8 witness: the fresh engine fails with NotReady; after a build and
after a successful cache load the lookups return ok. -/
theorem C8_not_ready_guard_witness :
    rechercher_similaires mNLP0 "du rock calme" 10 none = .error .notReady ∧
    obtenir_scores_detailles mNLP0 "du rock calme" = .error .notReady ∧
    (∃ r, rechercher_similaires (preparer_referentiel mNLP0 [eRef])
      "du rock calme" 10 none = .ok r) ∧
    (∃ r, obtenir_scores_detailles (charger_cache mNLP0 cacheOkFile).2
      "du rock calme" = .ok r) :=
  ⟨((C8_not_ready_guard mNLP0 "du rock calme" 10 none).1 (by decide)).1,
   ((C8_not_ready_guard mNLP0 "du rock calme" 10 none).1 (by decide)).2,
   ((C8_not_ready_guard mNLP0 "du rock calme" 10 none).2.1 [eRef]).1,
   ((C8_not_ready_guard mNLP0 "du rock calme" 10 none).2.2 cacheOkFile (by decide)).2⟩

theorem plookup_filter_ne (k j : String) (hjk : j ≠ k) :
    ∀ l : List (String × LikertVal),
      plookup (l.filter (fun p => p.1 ≠ k)) j = plookup l j := by
  intro l
  induction l with
  | nil => rfl
  | cons p rest ih =>
      obtain ⟨k1, v⟩ := p
      rw [List.filter_cons]
      by_cases hp : k1 = k
      · rw [if_neg (by simp [hp])]
        have hpj : k1 ≠ j := fun hh => hjk (hh ▸ hp)
        rw [ih]
        simp only [plookup]
        rw [if_neg hpj]
      · rw [if_pos (by simp [hp])]
        simp only [plookup]
        by_cases hj : k1 = j
        · rw [if_pos hj, if_pos hj]
        · rw [if_neg hj, if_neg hj]
          exact ih

theorem plookup_filter_self (k : String) :
    ∀ l : List (String × LikertVal),
      plookup (l.filter (fun p => p.1 ≠ k)) k = none := by
  intro l
  induction l with
  | nil => rfl
  | cons p rest ih =>
      obtain ⟨k1, v⟩ := p
      rw [List.filter_cons]
      by_cases hp : k1 = k
      · rw [if_neg (by simp [hp])]
        exact ih
      · rw [if_pos (by simp [hp])]
        simp only [plookup]
        rw [if_neg hp]
        exact ih

/-- C9: a Likert answer that is missing, non-integer, or out of the 1..5
range is dropped individually from the structured answers, while every
valid answer for a question id is retained with its dimension; dropping
a malformed answer leaves the structured answers, and the preference
extraction run on them, exactly as if that single answer had never been
submitted. -/
theorem C9_likert_validation (input : List (String × LikertVal)) (qid : String) :
    (∀ d : String, (qid, d) ∈ questions_likert →
      ∀ n : ℤ, plookup input qid = some (.vint n) → 1 ≤ n → n ≤ 5 →
        (qid, (n, d)) ∈ collecter_likert input) ∧
    (∀ v : LikertVal, plookup input qid = some v →
      (∀ n : ℤ, v = .vint n → ¬(1 ≤ n ∧ n ≤ 5)) →
      (∀ p ∈ collecter_likert input, p.1 ≠ qid) ∧
      collecter_likert input =
        collecter_likert (input.filter (fun p => p.1 ≠ qid)) ∧
      extraire_preferences_audio (collecter_likert input) =
        extraire_preferences_audio
          (collecter_likert (input.filter (fun p => p.1 ≠ qid)))) := by
  constructor
  · intro d hq n hlook h1 h5
    refine List.mem_filterMap.mpr ⟨(qid, d), hq, ?_⟩
    show (match plookup input qid with
      | some (.vint v) => if 1 ≤ v ∧ v ≤ 5 then some (qid, (v, d)) else none
      | some .other => none
      | none => none) = some (qid, (n, d))
    rw [hlook]
    exact if_pos ⟨h1, h5⟩
  · intro v hlook hinv
    have hdrop : ∀ p ∈ collecter_likert input, p.1 ≠ qid := by
      intro p hp hpq
      obtain ⟨q, hqmem, hf⟩ := List.mem_filterMap.mp hp
      revert hf
      cases hv : plookup input q.1 with
      | none => intro hf; simp at hf
      | some lv =>
          cases lv with
          | other => intro hf; simp at hf
          | vint n =>
              intro hf
              have hf2 : (if 1 ≤ n ∧ n ≤ 5 then some (q.1, (n, q.2)) else none)
                  = some p := hf
              by_cases hr : 1 ≤ n ∧ n ≤ 5
              · rw [if_pos hr] at hf2
                have hpq1 : p.1 = q.1 := by
                  cases hf2
                  rfl
                have hq1 : q.1 = qid := hpq1 ▸ hpq
                rw [hq1] at hv
                rw [hlook] at hv
                have hvn : v = .vint n := by
                  cases hv
                  rfl
                exact hinv n hvn hr
              · rw [if_neg hr] at hf2
                exact Option.noConfusion hf2
    have hsame : collecter_likert input =
        collecter_likert (input.filter (fun p => p.1 ≠ qid)) := by
      unfold collecter_likert
      apply List.filterMap_congr
      intro q hqmem
      by_cases hq : q.1 = qid
      · rw [hq, hlook, plookup_filter_self]
        cases v with
        | other => rfl
        | vint n =>
            have := hinv n rfl
            simp only [if_neg this]
      · rw [plookup_filter_ne qid q.1 hq]
    exact ⟨hdrop, hsame, congrArg extraire_preferences_audio hsame⟩

/-- C9 witness: a profile with a valid energy answer and an out-of-range
calm answer keeps the former, drops the latter, and extracts preferences
as if the malformed answer had not been submitted. -/
theorem C9_likert_validation_witness :
    ("q1_energie", ((4:ℤ), "énergie")) ∈ collecter_likert likertInput ∧
    (∀ p ∈ collecter_likert likertInput, p.1 ≠ "q2_calme") ∧
    extraire_preferences_audio (collecter_likert likertInput) =
      extraire_preferences_audio
        (collecter_likert (likertInput.filter (fun p => p.1 ≠ "q2_calme"))) :=
  ⟨(C9_likert_validation likertInput "q1_energie").1 "énergie" (by decide) 4 rfl
      (by decide) (by decide),
   ((C9_likert_validation likertInput "q2_calme").2 (.vint 9) rfl
      (fun n hn => by
        cases hn
        decide)).1,
   ((C9_likert_validation likertInput "q2_calme").2 (.vint 9) rfl
      (fun n hn => by
        cases hn
        decide)).2.2⟩

theorem mem_commonFeatures (pref feat : Dict) (k : String) :
    k ∈ commonFeatures pref feat ↔ k ∈ dkeys pref ∧ k ∈ dkeys feat := by
  unfold commonFeatures
  simp [List.mem_filter, List.mem_dedup]

theorem commonFeatures_nil_of_disjoint (pref feat : Dict)
    (h : ∀ k ∈ dkeys pref, k ∉ dkeys feat) : commonFeatures pref feat = [] := by
  unfold commonFeatures
  refine List.filter_eq_nil_iff.mpr ?_
  intro k hk
  simp only [decide_eq_true_eq]
  exact h k (List.mem_dedup.mp hk)

theorem dlookup_mem : ∀ (d : Dict) (k : String), k ∈ dkeys d → (k, dlookup d k) ∈ d := by
  intro d
  induction d with
  | nil => intro k hk; simp [dkeys] at hk
  | cons p rest ih =>
      intro k hk
      obtain ⟨k1, v⟩ := p
      simp only [dlookup]
      by_cases h : k1 = k
      · subst h
        rw [if_pos rfl]
        exact List.mem_cons_self _ _
      · rw [if_neg h]
        have hk2 : k ∈ dkeys rest := by
          simp only [dkeys, List.map_cons, List.mem_cons] at hk
          rcases hk with h1 | h1
          · exact absurd h1.symm h
          · exact h1
        exact List.mem_cons_of_mem _ (ih k hk2)

theorem dlookup_cons_ne (k j : String) (v : ℚ) (d : Dict) (h : k ≠ j) :
    dlookup ((k, v) :: d) j = dlookup d j := by
  simp only [dlookup]
  rw [if_neg h]

theorem featureScore_self (f : String) (x : ℚ) : featureScore f x x = 1 := by
  unfold featureScore
  split_ifs <;> simp

theorem featureScore_nonneg (f : String) (p e : ℚ)
    (h : ¬ specialFeature f → |p - e| ≤ 1) : 0 ≤ featureScore f p e := by
  unfold featureScore
  split_ifs with h1 h2 h3
  · have := min_le_right (|p - e| / 30) 1
    linarith
  · have := min_le_right (|p - e| / 40) 1
    linarith
  · have := min_le_right (|p - e| / 120000) 1
    linarith
  · have h4 : ¬ specialFeature f := by
      intro hs
      rcases hs with a | a | a | a
      · exact h1 a
      · exact h2 (Or.inl a)
      · exact h2 (Or.inr a)
      · exact h3 a
    have := h h4
    linarith

theorem commonFeatures_cons_left (k : String) (v : ℚ) (pref feat : Dict)
    (hk : k ∉ dkeys feat) :
    commonFeatures ((k, v) :: pref) feat = commonFeatures pref feat := by
  unfold commonFeatures
  have hdk : dkeys ((k, v) :: pref) = k :: dkeys pref := rfl
  rw [hdk]
  by_cases hmem : k ∈ dkeys pref
  · rw [List.dedup_cons_of_mem hmem]
  · rw [List.dedup_cons_of_not_mem hmem, List.filter_cons]
    rw [if_neg (by simp [hk])]

theorem commonFeatures_cons_right (k : String) (v : ℚ) (pref feat : Dict)
    (hk : k ∉ dkeys pref) :
    commonFeatures pref ((k, v) :: feat) = commonFeatures pref feat := by
  unfold commonFeatures
  apply List.filter_congr
  intro x hx
  have hxp : x ∈ dkeys pref := List.mem_dedup.mp hx
  have hxk : x ≠ k := fun hh => hk (hh ▸ hxp)
  have hdk : dkeys ((k, v) :: feat) = k :: dkeys feat := rfl
  rw [hdk]
  simp [List.mem_cons, hxk]

theorem audioScores_cons_left (k : String) (v : ℚ) (pref feat : Dict)
    (hk : k ∉ dkeys feat) :
    audioScores ((k, v) :: pref) feat = audioScores pref feat := by
  unfold audioScores
  rw [commonFeatures_cons_left k v pref feat hk]
  apply List.map_congr_left
  intro f hf
  have hff : f ∈ dkeys feat := ((mem_commonFeatures pref feat f).mp hf).2
  have hkf : k ≠ f := fun hh => hk (hh ▸ hff)
  rw [dlookup_cons_ne k f v pref hkf]

theorem audioScores_cons_right (k : String) (v : ℚ) (pref feat : Dict)
    (hk : k ∉ dkeys pref) :
    audioScores pref ((k, v) :: feat) = audioScores pref feat := by
  unfold audioScores
  rw [commonFeatures_cons_right k v pref feat hk]
  apply List.map_congr_left
  intro f hf
  have hfp : f ∈ dkeys pref := ((mem_commonFeatures pref feat f).mp hf).1
  have hkf : k ≠ f := fun hh => hk (hh ▸ hfp)
  rw [dlookup_cons_ne k f v feat hkf]

theorem commonFeatures_nil_right (pref : Dict) : commonFeatures pref [] = [] := by
  unfold commonFeatures
  refine List.filter_eq_nil_iff.mpr ?_
  intro k _
  simp [dkeys]

theorem audioScores_nil_left (feat : Dict) : audioScores [] feat = [] := rfl

theorem audioScores_nil_right (pref : Dict) : audioScores pref [] = [] := by
  unfold audioScores
  rw [commonFeatures_nil_right]
  rfl

/-- C3: audio_match returns the neutral 0.5 when either mapping is empty
or the key sets are disjoint; returns 1.0 when the mappings agree on
every shared key and at least one key is shared; otherwise returns the
arithmetic mean over shared keys of the per-feature closeness formulas;
when all non-special feature values sit in their documented 0..1 scale
the result lies in [0,1]; a key present on only one side never affects
the result. -/
theorem C3_audio_match (pref feat : Dict) :
    ((pref = [] ∨ feat = []) → calculer_score_audio_match pref feat = 1/2) ∧
    ((∀ k ∈ dkeys pref, k ∉ dkeys feat) →
      calculer_score_audio_match pref feat = 1/2) ∧
    (commonFeatures pref feat ≠ [] →
      (∀ k ∈ commonFeatures pref feat, dlookup pref k = dlookup feat k) →
      calculer_score_audio_match pref feat = 1) ∧
    (commonFeatures pref feat ≠ [] →
      calculer_score_audio_match pref feat =
        ((commonFeatures pref feat).map (fun f =>
          if f = "loudness" then 1 - min (|dlookup pref f - dlookup feat f| / 30) 1
          else if f = "tempo" ∨ f = "bpm" then
            1 - min (|dlookup pref f - dlookup feat f| / 40) 1
          else if f = "duration_ms" then
            1 - min (|dlookup pref f - dlookup feat f| / 120000) 1
          else 1 - |dlookup pref f - dlookup feat f|)).sum /
        ((commonFeatures pref feat).map (fun f =>
          if f = "loudness" then 1 - min (|dlookup pref f - dlookup feat f| / 30) 1
          else if f = "tempo" ∨ f = "bpm" then
            1 - min (|dlookup pref f - dlookup feat f| / 40) 1
          else if f = "duration_ms" then
            1 - min (|dlookup pref f - dlookup feat f| / 120000) 1
          else 1 - |dlookup pref f - dlookup feat f|)).length) ∧
    ((∀ p ∈ pref ++ feat, ¬ specialFeature p.1 → 0 ≤ p.2 ∧ p.2 ≤ 1) →
      0 ≤ calculer_score_audio_match pref feat ∧
      calculer_score_audio_match pref feat ≤ 1) ∧
    (∀ (k : String) (v : ℚ), k ∉ dkeys feat →
      calculer_score_audio_match ((k, v) :: pref) feat =
        calculer_score_audio_match pref feat) ∧
    (∀ (k : String) (v : ℚ), k ∉ dkeys pref →
      calculer_score_audio_match pref ((k, v) :: feat) =
        calculer_score_audio_match pref feat) := by
  have hmapeq : audioScores pref feat =
      (commonFeatures pref feat).map (fun f =>
        if f = "loudness" then 1 - min (|dlookup pref f - dlookup feat f| / 30) 1
        else if f = "tempo" ∨ f = "bpm" then
          1 - min (|dlookup pref f - dlookup feat f| / 40) 1
        else if f = "duration_ms" then
          1 - min (|dlookup pref f - dlookup feat f| / 120000) 1
        else 1 - |dlookup pref f - dlookup feat f|) := rfl
  have hlen : audioScores pref feat ≠ [] ↔ commonFeatures pref feat ≠ [] := by
    unfold audioScores
    simp
  refine ⟨?_, ?_, ?_, ?_, ?_, ?_, ?_⟩
  · intro h
    unfold calculer_score_audio_match
    rw [if_pos h]
  · intro h
    unfold calculer_score_audio_match
    by_cases h0 : pref = [] ∨ feat = []
    · rw [if_pos h0]
    · rw [if_neg h0]
      have hc : commonFeatures pref feat = [] := commonFeatures_nil_of_disjoint pref feat h
      have hs : audioScores pref feat = [] := by
        unfold audioScores
        rw [hc]
        rfl
      rw [if_pos hs]
  · intro hne hagree
    have hpne : pref ≠ [] := by
      intro hp
      obtain ⟨k, hk⟩ := List.exists_mem_of_ne_nil _ hne
      have := ((mem_commonFeatures pref feat k).mp hk).1
      rw [hp] at this
      simp [dkeys] at this
    have hfne : feat ≠ [] := by
      intro hf
      obtain ⟨k, hk⟩ := List.exists_mem_of_ne_nil _ hne
      have := ((mem_commonFeatures pref feat k).mp hk).2
      rw [hf] at this
      simp [dkeys] at this
    have hones : ∀ x ∈ audioScores pref feat, x = (1:ℚ) := by
      intro x hx
      obtain ⟨f, hf, rfl⟩ := List.mem_map.mp hx
      rw [hagree f hf]
      exact featureScore_self f _
    have hsum : (audioScores pref feat).sum = (audioScores pref feat).length := by
      rw [List.sum_eq_card_nsmul _ 1 hones]
      simp
    unfold calculer_score_audio_match
    rw [if_neg (by simp [hpne, hfne]), if_neg (hlen.mpr hne), hsum]
    have hposlen : ((audioScores pref feat).length : ℚ) ≠ 0 := by
      have : audioScores pref feat ≠ [] := hlen.mpr hne
      exact_mod_cast fun hh =>
        this (List.length_eq_zero.mp (by exact_mod_cast hh))
    field_simp
  · intro hne
    have hpne : pref ≠ [] := by
      intro hp
      obtain ⟨k, hk⟩ := List.exists_mem_of_ne_nil _ hne
      have := ((mem_commonFeatures pref feat k).mp hk).1
      rw [hp] at this
      simp [dkeys] at this
    have hfne : feat ≠ [] := by
      intro hf
      obtain ⟨k, hk⟩ := List.exists_mem_of_ne_nil _ hne
      have := ((mem_commonFeatures pref feat k).mp hk).2
      rw [hf] at this
      simp [dkeys] at this
    unfold calculer_score_audio_match
    rw [if_neg (by simp [hpne, hfne]), if_neg (hlen.mpr hne), hmapeq]
  · intro hscale
    constructor
    · unfold calculer_score_audio_match
      split_ifs with h1 h2
      · norm_num
      · norm_num
      · have hnn : ∀ x ∈ audioScores pref feat, (0:ℚ) ≤ x := by
          intro x hx
          obtain ⟨f, hf, rfl⟩ := List.mem_map.mp hx
          apply featureScore_nonneg
          intro hnsp
          have hfp : f ∈ dkeys pref := ((mem_commonFeatures pref feat f).mp hf).1
          have hff : f ∈ dkeys feat := ((mem_commonFeatures pref feat f).mp hf).2
          have hp := hscale (f, dlookup pref f)
            (List.mem_append.mpr (Or.inl (dlookup_mem pref f hfp))) hnsp
          have hq := hscale (f, dlookup feat f)
            (List.mem_append.mpr (Or.inr (dlookup_mem feat f hff))) hnsp
          rw [abs_sub_le_iff]
          constructor
          · linarith [hp.1, hp.2, hq.1, hq.2]
          · linarith [hp.1, hp.2, hq.1, hq.2]
        have hsum := List.sum_nonneg hnn
        positivity
    · exact audio_match_le_one pref feat
  · intro k v hk
    by_cases hfe : feat = []
    · subst hfe
      unfold calculer_score_audio_match
      rw [if_pos (Or.inr rfl), if_pos (Or.inr rfl)]
    · by_cases hpe : pref = []
      · subst hpe
        unfold calculer_score_audio_match
        rw [if_pos (Or.inl rfl)]
        rw [if_neg (by simp [hfe])]
        have hs : audioScores ((k, v) :: ([] : Dict)) feat = [] := by
          rw [audioScores_cons_left k v [] feat hk]
          exact audioScores_nil_left feat
        rw [if_pos hs]
      · unfold calculer_score_audio_match
        rw [audioScores_cons_left k v pref feat hk]
        rw [if_neg (show ¬((k, v) :: pref = [] ∨ feat = []) by simp [hfe])]
        rw [if_neg (show ¬(pref = [] ∨ feat = []) by simp [hpe, hfe])]
  · intro k v hk
    by_cases hpe : pref = []
    · subst hpe
      unfold calculer_score_audio_match
      rw [if_pos (Or.inl rfl), if_pos (Or.inl rfl)]
    · by_cases hfe : feat = []
      · subst hfe
        unfold calculer_score_audio_match
        rw [if_pos (Or.inr rfl)]
        rw [if_neg (by simp [hpe])]
        have hs : audioScores pref ((k, v) :: ([] : Dict)) = [] := by
          rw [audioScores_cons_right k v pref [] hk]
          exact audioScores_nil_right pref
        rw [if_pos hs]
      · unfold calculer_score_audio_match
        rw [audioScores_cons_right k v pref feat hk]
        rw [if_neg (show ¬(pref = [] ∨ (k, v) :: feat = []) by simp [hpe])]
        rw [if_neg (show ¬(pref = [] ∨ feat = []) by simp [hpe, hfe])]

/-- C3 witness: concrete dicts realize the empty, disjoint, agreeing,
in-range and one-sided-key cases. -/
theorem C3_audio_match_witness :
    calculer_score_audio_match [] [("energy", 1)] = 1/2 ∧
    calculer_score_audio_match [("energy", 1)] [("tempo", 120)] = 1/2 ∧
    calculer_score_audio_match [("energy", 1), ("tempo", 120)]
      [("tempo", 120), ("energy", 1), ("valence", 0)] = 1 ∧
    (0 ≤ calculer_score_audio_match [("energy", 1)] [("energy", 0)] ∧
      calculer_score_audio_match [("energy", 1)] [("energy", 0)] ≤ 1) ∧
    calculer_score_audio_match [("liveness", 1), ("energy", 1)] [("energy", 0)] =
      calculer_score_audio_match [("energy", 1)] [("energy", 0)] :=
  ⟨(C3_audio_match [] [("energy", 1)]).1 (Or.inl rfl),
   (C3_audio_match [("energy", 1)] [("tempo", 120)]).2.1 (by decide),
   (C3_audio_match [("energy", 1), ("tempo", 120)]
      [("tempo", 120), ("energy", 1), ("valence", 0)]).2.2.1 (by decide)
      (by decide),
   (C3_audio_match [("energy", 1)] [("energy", 0)]).2.2.2.2.1 (by decide),
   (C3_audio_match [("energy", 1)] [("energy", 0)]).2.2.2.2.2.1 "liveness" 1
      (by decide)⟩

end Vibey
